import Mathlib

/-!
# ChatCepat WhatsApp gateway — verification of the core engines

Shallow embedding of the rate limiter, the broadcast executor, the inbound
dispatcher, the auto-reply pacing and the session manager of the
`chatcepat-wa` repository, together with proofs about the specified
properties.  Times and delays are modelled as rationals (milliseconds since
the epoch); RNG draws are rationals `r` with `0 ≤ r < 1` standing for
`Math.random()`.
-/

namespace ChatCepat

/-! ## Rate limiter

Embedding of `src/infrastructure/rate-limiter/RateLimiter.ts` and the
repository effects of
`src/infrastructure/database/mysql/repositories/RateLimitRepository.ts`.
-/

/-- `RateLimitConfig` of `RateLimiter.ts`. -/
structure RateLimitConfig where
  messagesPerMinute : ℕ
  messagesPerHour : ℕ
  messagesPerDay : ℕ
  minDelayMs : ℚ
  maxDelayMs : ℚ
  cooldownAfterMessages : ℕ
  cooldownDurationMs : ℚ
  deriving DecidableEq

/-- The environment defaults of `env.rateLimit` (shared/config/env.ts):
10 / 100 / 1000 / 2000 / 5000 / 50 / 300000. -/
def defaultRateLimitConfig : RateLimitConfig :=
  { messagesPerMinute := 10
    messagesPerHour := 100
    messagesPerDay := 1000
    minDelayMs := 2000
    maxDelayMs := 5000
    cooldownAfterMessages := 50
    cooldownDurationMs := 300000 }

/-- The per-session rate bucket row (`whatsapp_rate_limits`), as mapped to the
`RateLimitState` entity. -/
structure RateLimitState where
  messagesSentLastHour : ℕ
  messagesSentToday : ℕ
  lastMessageSentAt : Option ℚ
  cooldownUntil : Option ℚ
  deriving DecidableEq

/-- `RateLimitCheckResult` of `RateLimiter.ts`. -/
structure RateLimitCheckResult where
  canSend : Bool
  delayMs : ℚ
  reason : Option String
  deriving DecidableEq

/-- `RateLimiter.resetCountersIfNeeded`: the state of the row as persisted by
the repository calls (`resetHourCount`, `resetDailyCount`, `clearCooldown`).
The hour counter is zeroed when at least one hour passed since
`lastMessageSentAt`, the day counter when at least 24 hours passed, and an
elapsed cooldown is cleared.  Note that the source updates the database row
only; the in-memory snapshot it was handed is left untouched. -/
def resetCountersIfNeeded (state : RateLimitState) (now : ℚ) : RateLimitState :=
  match state.lastMessageSentAt with
  | none => state
  | some last =>
    let s1 := if (now - last) / 3600000 ≥ 1 then
        { state with messagesSentLastHour := 0 } else state
    let s2 := if (now - last) / 86400000 ≥ 1 then
        { s1 with messagesSentToday := 0 } else s1
    match state.cooldownUntil with
    | some c => if now ≥ c then { s2 with cooldownUntil := none } else s2
    | none => s2

/-- The pre-clamp value of `RateLimiter.calculateAdaptiveDelay`:
`baseDelay + jitter` where
`baseDelay = minDelayMs + (maxDelayMs - minDelayMs) * (hourCount / messagesPerHour)`
and `jitter = baseDelay * 0.2 * (rand - 0.5)` for the draw `rand` of
`Math.random()`. -/
def calculateAdaptiveDelayPreClamp (config : RateLimitConfig)
    (messagesSentLastHour : ℕ) (rand : ℚ) : ℚ :=
  let hourlyUsageRatio : ℚ := (messagesSentLastHour : ℚ) / (config.messagesPerHour : ℚ)
  let baseDelay := config.minDelayMs + (config.maxDelayMs - config.minDelayMs) * hourlyUsageRatio
  let jitter := baseDelay * (2 / 10) * (rand - 1 / 2)
  baseDelay + jitter

/-- `RateLimiter.calculateAdaptiveDelay`: the pre-clamp value clamped into
`[minDelayMs, maxDelayMs]` by `Math.max(minDelayMs, Math.min(maxDelayMs, finalDelay))`. -/
def calculateAdaptiveDelay (config : RateLimitConfig)
    (messagesSentLastHour : ℕ) (rand : ℚ) : ℚ :=
  max config.minDelayMs
    (min config.maxDelayMs (calculateAdaptiveDelayPreClamp config messagesSentLastHour rand))

/-- The base delay (before jitter) of `calculateAdaptiveDelay`. -/
def adaptiveBaseDelay (config : RateLimitConfig) (messagesSentLastHour : ℕ) : ℚ :=
  config.minDelayMs +
    (config.maxDelayMs - config.minDelayMs) *
      ((messagesSentLastHour : ℚ) / (config.messagesPerHour : ℚ))

/-- `RateLimiter.checkRateLimit`.  Returns the persisted row after the reset
calls together with the check result.  Exactly as in the source, the
cooldown / hour / day comparisons and the adaptive-delay computation read the
in-memory snapshot `state` that was fetched *before* `resetCountersIfNeeded`
ran — the resets are only written through the repository. -/
def checkRateLimit (config : RateLimitConfig) (state : RateLimitState)
    (now rand : ℚ) : RateLimitState × RateLimitCheckResult :=
  let persisted := resetCountersIfNeeded state now
  let inCooldown := match state.cooldownUntil with
    | some c => decide (now < c)
    | none => false
  if inCooldown then
    let c := state.cooldownUntil.getD 0
    (persisted,
      { canSend := false
        delayMs := c - now
        reason := some ("In cooldown for " ++ toString (Int.ceil ((c - now) / 1000)) ++ "s") })
  else if state.messagesSentLastHour ≥ config.messagesPerHour then
    (persisted, { canSend := false, delayMs := 3600000, reason := some "Per-hour limit reached" })
  else if state.messagesSentToday ≥ config.messagesPerDay then
    (persisted, { canSend := false, delayMs := 86400000, reason := some "Daily limit reached" })
  else
    (persisted,
      { canSend := true
        delayMs := calculateAdaptiveDelay config state.messagesSentLastHour rand
        reason := none })

/-! ## Phone-number normalization

`CreateBroadcastUseCase.normalizePhoneNumber`: strip every non-digit
character (`replace(/\D/g, ...)`), then rewrite a leading `0` to the
Indonesian country prefix `62`. -/

/-- The `startsWith('0')` rewrite of `normalizePhoneNumber`:
`'62' + cleaned.slice(1)` when the cleaned digits begin with `0`. -/
def rewriteLeadingZero (cleaned : List Char) : List Char :=
  match cleaned with
  | [] => []
  | c :: rest => if c = '0' then '6' :: '2' :: rest else c :: rest

/-- `CreateBroadcastUseCase.normalizePhoneNumber`. -/
def normalizePhoneNumber (phone : String) : String :=
  let cleaned := phone.data.filter Char.isDigit
  String.mk (rewriteLeadingZero cleaned)

/-! ## Quick-reconnect backoff

`SessionManager.setupConnectionHandlers`, transient-close branch:
`delay = Math.min(baseDelay * Math.pow(2, attempts), maxDelay)` where
`attempts` is the stored counter *before* it is incremented, i.e. `n - 1` for
the 1-indexed attempt `n`. -/

/-- `whatsappConfig.session.reconnectMaxAttempts` (shared/config/whatsapp.ts). -/
def reconnectMaxAttempts : ℕ := 20

/-- `whatsappConfig.session.reconnectDelayMs`. -/
def configReconnectDelayMs : ℕ := 3000

/-- `whatsappConfig.session.reconnectMaxDelayMs`. -/
def configReconnectMaxDelayMs : ℕ := 60000

/-- The backoff delay computed in the reconnect branch, as a function of the
stored attempt counter (0-based). -/
def reconnectBackoffDelay (baseDelay maxDelay attempts : ℕ) : ℕ :=
  min (baseDelay * 2 ^ attempts) maxDelay

/-! ## Auto-reply human-typing pacing

`ProcessAutoReplyUseCase.execute`, outbound path:
`baseTypingMs = Math.min(wordCount * 200, 8000)`,
`randomVariation = Math.floor(Math.random() * 2000) - 1000`,
`typingDuration = Math.max(1500, baseTypingMs + randomVariation)`,
`sendDelay = 300 + Math.floor(Math.random() * 500)`. -/

/-- The simulated-typing wait between the `composing` and `paused` presence
updates, for a reply of `wordCount` words and the draw `rand` of
`Math.random()`. -/
def typingDurationMs (wordCount : ℕ) (rand : ℚ) : ℤ :=
  let baseTypingMs : ℤ := min ((wordCount : ℤ) * 200) 8000
  let randomVariation : ℤ := Int.floor (rand * 2000) - 1000
  max 1500 (baseTypingMs + randomVariation)

/-- The pause between the `paused` presence update and the actual text send,
for the draw `rand` of `Math.random()`. -/
def sendDelayMs (rand : ℚ) : ℤ :=
  300 + Int.floor (rand * 500)

/-! ## Broadcast executor

`ExecuteBroadcastUseCase.processBroadcast` and `CancelBroadcastUseCase.execute`
(application/use-cases/messaging), with the `BroadcastCampaign` entity
(domain/entities/BroadcastCampaign.ts).  The rate-limiter verdict and the
transport outcome at each loop iteration are supplied by an environment
`env : ℕ → SendDecision` indexed by the loop counter `i`. -/

/-- `BroadcastStatus` of `BroadcastCampaign.ts`. -/
inductive BroadcastStatus where
  | draft | scheduled | processing | completed | failed | cancelled
  deriving DecidableEq, BEq

/-- Recipient status of `BroadcastRecipient`. -/
inductive RecipientStatus where
  | pending | sent | failed | skipped
  deriving DecidableEq, BEq

/-- `BroadcastCampaign.canStart`. -/
def canStart (s : BroadcastStatus) : Bool :=
  s == BroadcastStatus.draft || s == BroadcastStatus.scheduled

/-- `BroadcastCampaign.canCancel`. -/
def canCancel (s : BroadcastStatus) : Bool :=
  s == BroadcastStatus.draft || s == BroadcastStatus.scheduled ||
    s == BroadcastStatus.processing

/-- The outside world at one iteration of the processing loop: the verdict of
`rateLimiter.checkRateLimit` and whether `sendToRecipient` succeeds. -/
structure SendDecision where
  canSend : Bool
  sendOk : Bool
  deriving DecidableEq

/-- One recipient row handed to the loop by `getPendingRecipients`. -/
structure PendingRecipient where
  phoneNumber : String
  name : Option String
  deriving DecidableEq

/-- The `for` loop of `ExecuteBroadcastUseCase.processBroadcast`, processing
the fetched pending recipients in order.  Returns the resulting status of
each fetched row (aligned with the input list) together with the final
`sentCount` and `failedCount`.  When the rate-limit check denies, the source
sleeps `delayMs` and executes `continue`, which advances the loop index: the
recipient row is not touched and neither counter is incremented.  The
progress writes, the progress events and the inter-batch sleep
(`batchCount >= campaign.batchSize`) do not change any row status or
counter and are omitted from the result. -/
def processPendingRecipients (env : ℕ → SendDecision) :
    List PendingRecipient → ℕ → ℕ → ℕ → List RecipientStatus × ℕ × ℕ
  | [], _, sentCount, failedCount => ([], sentCount, failedCount)
  | _recipient :: rest, i, sentCount, failedCount =>
    let d := env i
    if !d.canSend then
      -- waitForDelay(delayMs); continue
      let out := processPendingRecipients env rest (i + 1) sentCount failedCount
      (RecipientStatus.pending :: out.1, out.2)
    else if d.sendOk then
      -- sendToRecipient ok: updateRecipientStatus 'sent'; recordMessageSent; sentCount++
      let out := processPendingRecipients env rest (i + 1) (sentCount + 1) failedCount
      (RecipientStatus.sent :: out.1, out.2)
    else
      -- catch: updateRecipientStatus 'failed'; failedCount++
      let out := processPendingRecipients env rest (i + 1) sentCount (failedCount + 1)
      (RecipientStatus.failed :: out.1, out.2)

/-- The status a fetched recipient row ends up with after its loop
iteration, as a function of the environment decision: denied by the rate
limiter leaves the row `pending`, an admitted send marks it `sent` or
`failed`. -/
def outcomeStatus (d : SendDecision) : RecipientStatus :=
  if !d.canSend then RecipientStatus.pending
  else if d.sendOk then RecipientStatus.sent
  else RecipientStatus.failed

/-- Result of one `processBroadcast` run. -/
structure BroadcastRunResult where
  recipientStatuses : List RecipientStatus
  sentCount : ℕ
  failedCount : ℕ
  finalStatus : BroadcastStatus
  deriving DecidableEq

/-- `ExecuteBroadcastUseCase.processBroadcast`: run the loop over the fetched
pending recipients starting from the campaign counters, then unconditionally
`updateStatus(campaign.id, 'completed')`. -/
def processBroadcast (env : ℕ → SendDecision) (pending : List PendingRecipient)
    (sentCount0 failedCount0 : ℕ) : BroadcastRunResult :=
  let out := processPendingRecipients env pending 0 sentCount0 failedCount0
  { recipientStatuses := out.1
    sentCount := out.2.1
    failedCount := out.2.2
    finalStatus := BroadcastStatus.completed }

/-- The processing loop interleaved with `CancelBroadcastUseCase.execute`:
just before loop iteration `cancelAt`, the cancel use case writes
`cancelled` into the campaign's status cell (guarded by `canCancel`, as in
the source).  The loop body of `processBroadcast` contains no read of the
campaign status, so the cell is only threaded through. -/
def processLoopWithCancelAt (env : ℕ → SendDecision) (cancelAt : ℕ) :
    List PendingRecipient → ℕ → BroadcastStatus →
      List RecipientStatus × BroadcastStatus
  | [], _, dbStatus => ([], dbStatus)
  | _recipient :: rest, i, dbStatus =>
    let dbStatus1 := if i = cancelAt && canCancel dbStatus then
        BroadcastStatus.cancelled else dbStatus
    let d := env i
    let st := if !d.canSend then RecipientStatus.pending
      else if d.sendOk then RecipientStatus.sent
      else RecipientStatus.failed
    let out := processLoopWithCancelAt env cancelAt rest (i + 1) dbStatus1
    (st :: out.1, out.2)

/-- `processBroadcast` with a cancellation interleaved before iteration
`cancelAt`: the campaign starts in `processing` (set by `execute`), the loop
runs to the end, and the epilogue writes `completed` over whatever the status
cell holds. -/
def processBroadcastWithCancelAt (env : ℕ → SendDecision) (cancelAt : ℕ)
    (pending : List PendingRecipient) : List RecipientStatus × BroadcastStatus :=
  let out := processLoopWithCancelAt env cancelAt pending 0 BroadcastStatus.processing
  (out.1, BroadcastStatus.completed)

/-! ## Inbound dispatcher

`ProcessIncomingMessageUseCase.execute` (the deduplicating revision of
application/use-cases/messaging/ProcessIncomingMessageUseCase.ts, the one
with the `DEDUPLICATION CHECK` block and the human-agent routing).  The
message repository is modelled as the list of persisted rows; contact
upserts, `message:incoming` fan-out events and auto-reply invocations are
counted. -/

/-- Session status of the `WhatsAppSession` entity. -/
inductive SessionStatus where
  | qrPending | connecting | connected | disconnected | failed
  deriving DecidableEq, BEq

/-- Message direction. -/
inductive Direction where
  | incoming | outgoing
  deriving DecidableEq, BEq

/-- Message type. -/
inductive MessageType where
  | text | image | video | audio | document | sticker | location | contact | other
  deriving DecidableEq, BEq

/-- Message status. -/
inductive MessageStatus where
  | pending | sent | delivered | read | failed
  deriving DecidableEq, BEq

/-- A persisted `whatsapp_messages` row (the fields the dispatcher writes). -/
structure MessageRow where
  messageId : String
  fromNumber : String
  toNumber : String
  pushName : Option String
  direction : Direction
  type : MessageType
  content : Option String
  status : MessageStatus
  isAutoReply : Bool
  deriving DecidableEq

/-- The recognized options of the session `settings` blob. -/
structure SessionSettings where
  autoReplyEnabled : Option Bool
  autoSaveContacts : Option Bool
  deriving DecidableEq

/-- The session row fields the dispatcher reads. -/
structure SessionRow where
  id : ℕ
  userId : ℕ
  sessionId : String
  status : SessionStatus
  settings : Option SessionSettings
  aiAssistantType : Option String
  deriving DecidableEq

/-- The raw inbound event (`IncomingMessageData`).  `socketPresent` models
whether `data.socket` was passed by the message handler. -/
structure IncomingMessageData where
  whatsappSessionId : String
  messageId : String
  fromNumber : String
  toNumber : String
  type : MessageType
  content : Option String
  pushName : Option String
  socketPresent : Bool
  replyJid : Option String
  deriving DecidableEq

/-- Durable and observable effects of the dispatcher: persisted message rows,
number of contact upserts, number of `message:incoming` events and number of
`processAutoReplyUseCase.execute` invocations. -/
structure DispatchState where
  messages : List MessageRow
  contactSaves : ℕ
  incomingEvents : ℕ
  autoReplyCalls : ℕ
  deriving DecidableEq

/-- `WhatsAppSession.isConnected`. -/
def sessionIsConnected (s : SessionRow) : Bool :=
  s.status == SessionStatus.connected

/-- `ProcessIncomingMessageUseCase.execute`.  `session` is the result of
`sessionRepository.findBySessionId`; `humanAgentId` is the
`human_agent_id` of the conversation row returned by
`checkAndCreateConversation`.  The error on a missing session models the
thrown `Session not found`. -/
def processIncomingMessage (session : Option SessionRow) (humanAgentId : Option ℕ)
    (st : DispatchState) (data : IncomingMessageData) : Except String DispatchState :=
  match session with
  | none => Except.error "Session not found"
  | some session =>
    let hasActiveSocket := data.socketPresent
    let isSessionConnected := sessionIsConnected session
    if !hasActiveSocket && !isSessionConnected then
      Except.ok st
    else
      -- DEDUPLICATION CHECK: messageRepository.findByMessageId
      match st.messages.find? (fun m => m.messageId == data.messageId) with
      | some _ => Except.ok st  -- already processed: skip to avoid duplicate
      | none =>
        -- messageRepository.create
        let st := { st with messages := st.messages ++
          [({ messageId := data.messageId,
              fromNumber := data.fromNumber,
              toNumber := data.toNumber,
              pushName := data.pushName,
              direction := Direction.incoming,
              type := data.type,
              content := data.content,
              status := MessageStatus.delivered,
              isAutoReply := false } : MessageRow)] }
        -- contact auto-save (default: true)
        let autoSaveContacts := (session.settings.bind (·.autoSaveContacts)).getD true
        let st := if autoSaveContacts then
            { st with contactSaves := st.contactSaves + 1 } else st
        -- socketServer.emitIncomingMessage
        let st := { st with incomingEvents := st.incomingEvents + 1 }
        -- human-agent routing: skip auto-reply when assigned
        match humanAgentId with
        | some _ => Except.ok st
        | none =>
          let autoReplyEnabled := (session.settings.bind (·.autoReplyEnabled)).getD true
          if !autoReplyEnabled then Except.ok st
          else if data.type != MessageType.text then Except.ok st
          else if data.socketPresent then
            Except.ok { st with autoReplyCalls := st.autoReplyCalls + 1 }
          else Except.ok st

/-! ## Session manager connection handler

`SessionManager.setupConnectionHandlers`
(src/infrastructure/whatsapp/SessionManager.ts).  The handler bodies for
`connection === 'close'` and `connection === 'open'` are embedded as the
ordered list of their observable actions (emitted live events, session-row
updates, credential-file deletion, sleeps, reconnect attempts, callbacks).
The numeric close codes are the `DisconnectReason` constants of the Baileys
library: loggedOut = 401, badSession = 500, connectionClosed = 428,
connectionLost = 408, timedOut = 408, connectionReplaced = 440,
restartRequired = 515. -/

namespace DisconnectReason

def loggedOut : ℕ := 401

def badSession : ℕ := 500

def connectionClosed : ℕ := 428

def connectionLost : ℕ := 408

def timedOut : ℕ := 408

def connectionReplaced : ℕ := 440

def restartRequired : ℕ := 515

end DisconnectReason

/-- The `whatsapp_sessions` row update passed to `sessionRepository.update`:
the new status, the `isActive` flag, whether `qrCode` / `qrExpiresAt` are
set to null, and the phone number when one is written. -/
structure SessionUpdate where
  status : SessionStatus
  isActive : Bool
  clearQr : Bool
  phoneNumber : Option String
  deriving DecidableEq

/-- One observable action of the connection handler, in program order. -/
inductive SMAction where
  | emitConnectionFailed (reason : String) (statusCode : Option ℕ)
  | dbUpdate (u : SessionUpdate)
  | deleteFiles
  | callbackDisconnected (reason : String)
  | emitDisconnected (reason : String)
  | sleepMs (ms : ℕ)
  | reconnect
  | callbackConnected (phone : String)
  | emitConnected (phone : String)
  deriving DecidableEq

/-- The `switch (statusCode)` of the close handler: the user-friendly reason
and the `isFatalError` flag.  The `case` arms are evaluated in source order;
the arms for `timedOut` (= 408, shadowed by `connectionLost`), `401`
(shadowed by `loggedOut`) and `500` (shadowed by `badSession`) are
unreachable.  An absent status code falls to the `default` arm where
`statusCode && statusCode >= 400` is falsy. -/
def classifyCloseCode (c : ℕ) : String × Bool :=
  if c = DisconnectReason.loggedOut then
      ("Sesi telah logout dari WhatsApp", true)
    else if c = DisconnectReason.badSession then
      ("Sesi tidak valid. Silakan scan QR code baru", true)
    else if c = DisconnectReason.connectionClosed then
      ("Koneksi ditutup oleh WhatsApp", false)
    else if c = DisconnectReason.connectionLost then
      ("Koneksi terputus. Mencoba menghubungkan ulang...", false)
    else if c = DisconnectReason.connectionReplaced then
      ("Koneksi digantikan oleh perangkat lain", true)
    else if c = DisconnectReason.restartRequired then
      ("Perlu restart. Silakan coba lagi", false)
    else if c = 403 then
      ("Akses ditolak oleh WhatsApp", true)
    else if c ≥ 400 then
      ("Gagal menautkan (Error " ++ toString c ++ ")", true)
    else
      ("Koneksi terputus", false)

/-- The classification of an optional status code: an absent code keeps the
defaults. -/
def classifyClose (statusCode : Option ℕ) : String × Bool :=
  match statusCode with
  | none => ("Koneksi terputus", false)
  | some c => classifyCloseCode c

/-- Whether the close handler classifies the closure as fatal. -/
def isFatalClose (statusCode : Option ℕ) : Bool :=
  (classifyClose statusCode).2

/-- The `connection === 'close'` handler body, as its ordered action list.
`attempts` is the stored reconnect counter read at the top of the reconnect
branch; `manualAtRetry` is the state of the manual-disconnect flag when it
is re-checked after the 2-minute long wait. -/
def closeHandlerTrace (statusCode : Option ℕ) (wasManualDisconnect : Bool)
    (attempts : ℕ) (manualAtRetry : Bool) : List SMAction :=
  let shouldReconnect :=
    statusCode != some DisconnectReason.loggedOut && !wasManualDisconnect
  let classified := classifyClose statusCode
  let userFriendlyReason := classified.1
  let isFatalError := classified.2
  if isFatalError then
    -- emit connection failed, then update the row, then cleanup
    [SMAction.emitConnectionFailed userFriendlyReason statusCode,
     SMAction.dbUpdate { status := SessionStatus.failed, isActive := false,
                         clearQr := true, phoneNumber := none },
     SMAction.deleteFiles,
     SMAction.callbackDisconnected userFriendlyReason]
  else if shouldReconnect then
    if attempts < reconnectMaxAttempts then
      [SMAction.sleepMs
         (reconnectBackoffDelay configReconnectDelayMs configReconnectMaxDelayMs attempts),
       SMAction.reconnect]
    else
      [SMAction.dbUpdate { status := SessionStatus.disconnected, isActive := false,
                           clearQr := false, phoneNumber := none },
       SMAction.emitDisconnected "Reconnecting in 2 minutes...",
       SMAction.sleepMs 120000] ++
        (if !manualAtRetry then [SMAction.reconnect] else [])
  else
    let disconnectReason := if wasManualDisconnect then "Manual disconnect" else "Logged out"
    (if !wasManualDisconnect then [SMAction.deleteFiles] else []) ++
      [SMAction.dbUpdate { status := SessionStatus.disconnected, isActive := false,
                           clearQr := true, phoneNumber := none },
       SMAction.callbackDisconnected disconnectReason,
       SMAction.emitDisconnected disconnectReason]

/-- The `connection === 'open'` handler body: the row is updated first
(status connected, phone number, QR cleared, active), then the callback
runs, then `session:connected` is published. -/
def openHandlerTrace (phoneNumber : String) : List SMAction :=
  [SMAction.dbUpdate { status := SessionStatus.connected, isActive := true,
                       clearQr := true, phoneNumber := some phoneNumber },
   SMAction.callbackConnected phoneNumber,
   SMAction.emitConnected phoneNumber]

/-- Does an action write the session row to the given status? -/
def isDbUpdateTo (s : SessionStatus) : SMAction → Bool
  | SMAction.dbUpdate u => u.status == s
  | _ => false

/-- Is the action the `session:connection_failed` publish? -/
def isEmitConnectionFailed : SMAction → Bool
  | SMAction.emitConnectionFailed _ _ => true
  | _ => false

/-- Is the action the `session:disconnected` publish? -/
def isEmitDisconnected : SMAction → Bool
  | SMAction.emitDisconnected _ => true
  | _ => false

/-- Is the action the `session:connected` publish? -/
def isEmitConnected : SMAction → Bool
  | SMAction.emitConnected _ => true
  | _ => false

/-! ## Theorems -/

/-! ### Phone-number normalization -/

theorem rewriteLeadingZero_idem (l : List Char) :
    rewriteLeadingZero (rewriteLeadingZero l) = rewriteLeadingZero l := by
  cases l with
  | nil => rfl
  | cons c rest =>
    by_cases h : c = '0'
    · simp [rewriteLeadingZero, h]
    · simp [rewriteLeadingZero, h]

theorem mem_rewriteLeadingZero_digit (l : List Char) (h : ∀ c ∈ l, c.isDigit)
    (c : Char) (hc : c ∈ rewriteLeadingZero l) : c.isDigit := by
  cases l with
  | nil => simp [rewriteLeadingZero] at hc
  | cons a rest =>
    by_cases ha : a = '0'
    · simp [rewriteLeadingZero, ha] at hc
      rcases hc with h6 | h2 | hmem
      · simp [h6]
      · simp [h2]
      · exact h c (by simp [hmem])
    · simp [rewriteLeadingZero, ha] at hc
      rcases hc with h1 | hmem
      · exact h c (by simp [h1])
      · exact h c (by simp [hmem])

theorem filter_rewriteLeadingZero_filter (l : List Char) :
    (rewriteLeadingZero (l.filter Char.isDigit)).filter Char.isDigit =
      rewriteLeadingZero (l.filter Char.isDigit) := by
  apply List.filter_eq_self.mpr
  intro c hc
  refine mem_rewriteLeadingZero_digit (l.filter Char.isDigit) ?_ c hc
  intro a ha
  exact (List.mem_filter.mp ha).2

/-- C9.  The broadcast phone-number normalization (strip non-digits, rewrite
a leading `0` to the `62` country prefix) is idempotent, and on a digit
string beginning with `0` it returns `62` followed by the remaining
digits. -/
theorem normalizePhoneNumber_idempotent :
    (∀ phone : String,
      normalizePhoneNumber (normalizePhoneNumber phone) = normalizePhoneNumber phone) ∧
    (∀ (phone : String) (rest : List Char), (∀ c ∈ phone.data, c.isDigit) →
      phone.data = '0' :: rest →
      normalizePhoneNumber phone = String.mk ('6' :: '2' :: rest)) := by
  constructor
  · intro phone
    show String.mk (rewriteLeadingZero
        ((String.mk (rewriteLeadingZero (phone.data.filter Char.isDigit))).data.filter
          Char.isDigit)) = _
    have hdata : (String.mk (rewriteLeadingZero (phone.data.filter Char.isDigit))).data =
        rewriteLeadingZero (phone.data.filter Char.isDigit) := rfl
    rw [hdata, filter_rewriteLeadingZero_filter, rewriteLeadingZero_idem]
    rfl
  · intro phone rest hdig hzero
    show String.mk (rewriteLeadingZero (phone.data.filter Char.isDigit)) = _
    rw [List.filter_eq_self.mpr hdig, hzero]
    simp [rewriteLeadingZero]

/-- Witness for C9 at the spec example `0812…`. -/
theorem normalizePhoneNumber_idempotent_witness :
    normalizePhoneNumber (normalizePhoneNumber "08123456789") =
      normalizePhoneNumber "08123456789" ∧
    normalizePhoneNumber "08123456789" =
      String.mk ('6' :: '2' :: "8123456789".data) :=
  ⟨normalizePhoneNumber_idempotent.1 "08123456789",
   normalizePhoneNumber_idempotent.2 "08123456789" "8123456789".data
     (by decide) (by decide)⟩

/-! ### Quick-reconnect backoff -/

/-- C8.  The backoff delay scheduled for 1-indexed quick-reconnect attempt
`n` equals `min(B * 2 ^ (n - 1), Bmax)`; it is non-decreasing in `n`, equals
`Bmax` once `B * 2 ^ (n - 1)` reaches the cap, and for a transient close
(`connectionClosed`) with `n ≤ N_max` the handler indeed sleeps exactly that
delay (at the configured `B = 3000`, `Bmax = 60000`) before reconnecting. -/
theorem reconnectBackoff_formula (B Bmax n : ℕ) (h1 : 1 ≤ n) :
    reconnectBackoffDelay B Bmax (n - 1) = min (B * 2 ^ (n - 1)) Bmax ∧
    (2 ≤ n → reconnectBackoffDelay B Bmax (n - 2) ≤ reconnectBackoffDelay B Bmax (n - 1)) ∧
    (Bmax ≤ B * 2 ^ (n - 1) → reconnectBackoffDelay B Bmax (n - 1) = Bmax) ∧
    (n ≤ reconnectMaxAttempts →
      closeHandlerTrace (some DisconnectReason.connectionClosed) false (n - 1) false =
        [SMAction.sleepMs
           (min (configReconnectDelayMs * 2 ^ (n - 1)) configReconnectMaxDelayMs),
         SMAction.reconnect]) := by
  refine ⟨rfl, ?_, ?_, ?_⟩
  · intro h2
    unfold reconnectBackoffDelay
    apply min_le_min _ le_rfl
    exact Nat.mul_le_mul_left B (Nat.pow_le_pow_right (by norm_num) (by omega))
  · intro hcap
    exact min_eq_right hcap
  · intro hn
    have hlt : n - 1 < reconnectMaxAttempts := by
      unfold reconnectMaxAttempts at hn ⊢
      omega
    simp only [closeHandlerTrace]
    rw [if_neg (by decide), if_pos (by decide), if_pos hlt]
    rfl

/-- Witness for C8 at `B = 3000`, `Bmax = 60000`, `n = 6`. -/
theorem reconnectBackoff_formula_witness :
    reconnectBackoffDelay 3000 60000 5 = min (3000 * 2 ^ 5) 60000 ∧
    (2 ≤ 6 → reconnectBackoffDelay 3000 60000 4 ≤ reconnectBackoffDelay 3000 60000 5) ∧
    (60000 ≤ 3000 * 2 ^ 5 → reconnectBackoffDelay 3000 60000 5 = 60000) ∧
    (6 ≤ reconnectMaxAttempts →
      closeHandlerTrace (some DisconnectReason.connectionClosed) false 5 false =
        [SMAction.sleepMs (min (configReconnectDelayMs * 2 ^ 5) configReconnectMaxDelayMs),
         SMAction.reconnect]) :=
  reconnectBackoff_formula 3000 60000 6 (by decide)

/-! ### Rate limiter: jitter width and stale counters -/

/-- C5.  On an admitted check the returned delay is indeed clamped into
`[minDelayMs, maxDelayMs]`, but the jitter of `calculateAdaptiveDelay` is
multiplicative by `0.2 * (rand - 0.5) ∈ [-0.1, 0.1)`: every reachable
pre-clamp value lies in `[0.9 * base, 1.1 * base)`, strictly above
`0.8 * base`, so the pre-clamp values do not span `base * [0.8, 1.2]` as the
claim (and the source's own `±20%` comment) state. -/
theorem adaptiveDelay_jitter_is_ten_percent (config : RateLimitConfig) (h : ℕ)
    (rand : ℚ) (h0 : 0 ≤ rand) (h1 : rand < 1)
    (hbase : 0 < adaptiveBaseDelay config h) :
    9 / 10 * adaptiveBaseDelay config h ≤ calculateAdaptiveDelayPreClamp config h rand ∧
    calculateAdaptiveDelayPreClamp config h rand < 11 / 10 * adaptiveBaseDelay config h ∧
    8 / 10 * adaptiveBaseDelay config h < calculateAdaptiveDelayPreClamp config h rand ∧
    config.minDelayMs ≤ calculateAdaptiveDelay config h rand ∧
    (config.minDelayMs ≤ config.maxDelayMs →
      calculateAdaptiveDelay config h rand ≤ config.maxDelayMs) := by
  have hpre : calculateAdaptiveDelayPreClamp config h rand =
      adaptiveBaseDelay config h +
        adaptiveBaseDelay config h * (2 / 10) * (rand - 1 / 2) := rfl
  set b := adaptiveBaseDelay config h with hb
  refine ⟨?_, ?_, ?_, ?_, ?_⟩
  · rw [hpre]
    nlinarith [mul_nonneg hbase.le h0]
  · rw [hpre]
    nlinarith [mul_pos hbase (show (0 : ℚ) < 1 - rand by linarith)]
  · rw [hpre]
    nlinarith [mul_nonneg hbase.le h0]
  · exact le_max_left _ _
  · intro hle
    exact max_le hle (min_le_left _ _)

/-- Witness for C5 at the default configuration, an empty hour bucket and
the draw `rand = 0`. -/
theorem adaptiveDelay_jitter_is_ten_percent_witness :
    9 / 10 * adaptiveBaseDelay defaultRateLimitConfig 0 ≤
      calculateAdaptiveDelayPreClamp defaultRateLimitConfig 0 0 ∧
    calculateAdaptiveDelayPreClamp defaultRateLimitConfig 0 0 <
      11 / 10 * adaptiveBaseDelay defaultRateLimitConfig 0 ∧
    8 / 10 * adaptiveBaseDelay defaultRateLimitConfig 0 <
      calculateAdaptiveDelayPreClamp defaultRateLimitConfig 0 0 ∧
    defaultRateLimitConfig.minDelayMs ≤ calculateAdaptiveDelay defaultRateLimitConfig 0 0 ∧
    (defaultRateLimitConfig.minDelayMs ≤ defaultRateLimitConfig.maxDelayMs →
      calculateAdaptiveDelay defaultRateLimitConfig 0 0 ≤
        defaultRateLimitConfig.maxDelayMs) :=
  adaptiveDelay_jitter_is_ten_percent defaultRateLimitConfig 0 0 (by norm_num)
    (by norm_num) (by norm_num [adaptiveBaseDelay, defaultRateLimitConfig])

/-- C6.  A check performed two hours after the last send, with the stored
hour counter at the limit: `resetCountersIfNeeded` zeroes the persisted hour
counter, yet the same check still denies with `Per-hour limit reached`,
because the limit comparison reads the stale in-memory snapshot fetched
before the reset. -/
theorem checkRateLimit_denies_on_stale_hour_counter :
    (checkRateLimit defaultRateLimitConfig
        { messagesSentLastHour := 100, messagesSentToday := 100,
          lastMessageSentAt := some 0, cooldownUntil := none }
        7200000 (1 / 2)).2.canSend = false ∧
    (checkRateLimit defaultRateLimitConfig
        { messagesSentLastHour := 100, messagesSentToday := 100,
          lastMessageSentAt := some 0, cooldownUntil := none }
        7200000 (1 / 2)).2.reason = some "Per-hour limit reached" ∧
    (checkRateLimit defaultRateLimitConfig
        { messagesSentLastHour := 100, messagesSentToday := 100,
          lastMessageSentAt := some 0, cooldownUntil := none }
        7200000 (1 / 2)).1.messagesSentLastHour = 0 ∧
    (checkRateLimit defaultRateLimitConfig
        { messagesSentLastHour := 100, messagesSentToday := 100,
          lastMessageSentAt := some 0, cooldownUntil := none }
        7200000 (1 / 2)).1.messagesSentToday = 100 := by
  refine ⟨?_, ?_, ?_, ?_⟩ <;>
    norm_num [checkRateLimit, resetCountersIfNeeded, defaultRateLimitConfig]

/-! ### Auto-reply typing pacing -/

/-- C7 counterexample.  At 50 words and the draw `rand = 1999/2000` the
typing wait is `min(50 * 200, 8000) + 999 = 8999 ms`, which exceeds the
claimed 8-second cap and differs from the claimed
`max(1500, wordCount * 200 + variation)` (which would be `10999`). -/
theorem typingDuration_exceeds_cap_cex :
    typingDurationMs 50 (1999 / 2000) = 8999 ∧
    ¬ typingDurationMs 50 (1999 / 2000) ≤ 8000 ∧
    typingDurationMs 50 (1999 / 2000) ≠ max 1500 (50 * 200 + (999 : ℤ)) := by
  refine ⟨?_, ?_, ?_⟩ <;> norm_num [typingDurationMs, min_def, max_def]

/-- C7 amended.  The typing wait equals
`max(1500, min(wordCount * 200, 8000) + (floor(rand * 2000) - 1000))`: the
8-second cap applies to the pre-jitter base, so the wait lies in
`[1500, 8999]` (it can exceed 8 s by up to 999 ms), and the pause before the
send is `300 + floor(rand2 * 500) ∈ [300, 799]` ms. -/
theorem typingDuration_bounds (wordCount : ℕ) (rand rand2 : ℚ)
    (h0 : 0 ≤ rand) (h1 : rand < 1) (g0 : 0 ≤ rand2) (g1 : rand2 < 1) :
    typingDurationMs wordCount rand =
      max 1500 (min ((wordCount : ℤ) * 200) 8000 + (Int.floor (rand * 2000) - 1000)) ∧
    1500 ≤ typingDurationMs wordCount rand ∧
    typingDurationMs wordCount rand ≤ 8999 ∧
    300 ≤ sendDelayMs rand2 ∧
    sendDelayMs rand2 ≤ 799 := by
  have hf1 : Int.floor (rand * 2000) ≤ 1999 := by
    have : Int.floor (rand * 2000) < 2000 := Int.floor_lt.mpr (by push_cast; nlinarith)
    omega
  have hf2 : (0 : ℤ) ≤ Int.floor (rand * 2000) := by
    apply Int.le_floor.mpr
    push_cast
    nlinarith
  have hg1 : Int.floor (rand2 * 500) ≤ 499 := by
    have : Int.floor (rand2 * 500) < 500 := Int.floor_lt.mpr (by push_cast; nlinarith)
    omega
  have hg2 : (0 : ℤ) ≤ Int.floor (rand2 * 500) := by
    apply Int.le_floor.mpr
    push_cast
    nlinarith
  refine ⟨rfl, le_max_left _ _, ?_, ?_, ?_⟩
  · apply max_le (by norm_num)
    have : min ((wordCount : ℤ) * 200) 8000 ≤ 8000 := min_le_right _ _
    omega
  · unfold sendDelayMs
    omega
  · unfold sendDelayMs
    omega

/-- Witness for C7 amended at 10 words and draws `1/4` and `1/2`. -/
theorem typingDuration_bounds_witness :
    typingDurationMs 10 (1 / 4) =
      max 1500 (min ((10 : ℤ) * 200) 8000 + (Int.floor ((1 / 4 : ℚ) * 2000) - 1000)) ∧
    1500 ≤ typingDurationMs 10 (1 / 4) ∧
    typingDurationMs 10 (1 / 4) ≤ 8999 ∧
    300 ≤ sendDelayMs (1 / 2) ∧
    sendDelayMs (1 / 2) ≤ 799 :=
  typingDuration_bounds 10 (1 / 4) (1 / 2) (by norm_num) (by norm_num) (by norm_num)
    (by norm_num)

/-! ### Broadcast executor -/

theorem processPendingRecipients_getElem (env : ℕ → SendDecision) :
    ∀ (l : List PendingRecipient) (i sentCount failedCount j : ℕ),
      (processPendingRecipients env l i sentCount failedCount).1[j]? =
        (l[j]?).map (fun _ => outcomeStatus (env (i + j))) := by
  intro l
  induction l with
  | nil => intro i s f j; simp [processPendingRecipients]
  | cons r rest ih =>
    intro i s f j
    cases hc : (env i).canSend with
    | false =>
      cases j with
      | zero => simp [processPendingRecipients, hc, outcomeStatus]
      | succ j =>
        simp only [processPendingRecipients, hc, Bool.not_false, if_pos]
        have := ih (i + 1) s f j
        simpa [Nat.add_assoc, Nat.add_comm 1 j] using this
    | true =>
      cases hs : (env i).sendOk with
      | true =>
        cases j with
        | zero => simp [processPendingRecipients, hc, hs, outcomeStatus]
        | succ j =>
          simp only [processPendingRecipients, hc, hs, Bool.not_true, Bool.false_eq_true,
            if_false, if_pos]
          have := ih (i + 1) (s + 1) f j
          simpa [Nat.add_assoc, Nat.add_comm 1 j] using this
      | false =>
        cases j with
        | zero => simp [processPendingRecipients, hc, hs, outcomeStatus]
        | succ j =>
          simp only [processPendingRecipients, hc, hs, Bool.not_true, Bool.false_eq_true,
            if_false]
          have := ih (i + 1) s (f + 1) j
          simpa [Nat.add_assoc, Nat.add_comm 1 j] using this

theorem processPendingRecipients_sentCount (env : ℕ → SendDecision) :
    ∀ (l : List PendingRecipient) (i sentCount failedCount : ℕ),
      (processPendingRecipients env l i sentCount failedCount).2.1 =
        sentCount + (processPendingRecipients env l i sentCount failedCount).1.countP
          (fun st => st == RecipientStatus.sent) := by
  intro l
  have hps : (RecipientStatus.pending == RecipientStatus.sent) = false := by decide
  have hfs : (RecipientStatus.failed == RecipientStatus.sent) = false := by decide
  have hss : (RecipientStatus.sent == RecipientStatus.sent) = true := by decide
  induction l with
  | nil => intro i s f; simp [processPendingRecipients]
  | cons r rest ih =>
    intro i s f
    cases hc : (env i).canSend with
    | false =>
      simp only [processPendingRecipients, hc, Bool.not_false, if_pos]
      rw [ih (i + 1) s f]
      simp [List.countP_cons, hps]
    | true =>
      cases hs : (env i).sendOk with
      | true =>
        simp only [processPendingRecipients, hc, hs, Bool.not_true, Bool.false_eq_true,
          if_false, if_pos]
        rw [ih (i + 1) (s + 1) f]
        simp [List.countP_cons, hss]
        omega
      | false =>
        simp only [processPendingRecipients, hc, hs, Bool.not_true, Bool.false_eq_true,
          if_false]
        rw [ih (i + 1) s (f + 1)]
        simp [List.countP_cons, hfs]


theorem processPendingRecipients_failedCount (env : ℕ → SendDecision) :
    ∀ (l : List PendingRecipient) (i sentCount failedCount : ℕ),
      (processPendingRecipients env l i sentCount failedCount).2.2 =
        failedCount + (processPendingRecipients env l i sentCount failedCount).1.countP
          (fun st => st == RecipientStatus.failed) := by
  intro l
  have hpf : (RecipientStatus.pending == RecipientStatus.failed) = false := by decide
  have hsf : (RecipientStatus.sent == RecipientStatus.failed) = false := by decide
  have hff : (RecipientStatus.failed == RecipientStatus.failed) = true := by decide
  induction l with
  | nil => intro i s f; simp [processPendingRecipients]
  | cons r rest ih =>
    intro i s f
    cases hc : (env i).canSend with
    | false =>
      simp only [processPendingRecipients, hc, Bool.not_false, if_pos]
      rw [ih (i + 1) s f]
      simp [List.countP_cons, hpf]
    | true =>
      cases hs : (env i).sendOk with
      | true =>
        simp only [processPendingRecipients, hc, hs, Bool.not_true, Bool.false_eq_true,
          if_false, if_pos]
        rw [ih (i + 1) (s + 1) f]
        simp [List.countP_cons, hsf]
      | false =>
        simp only [processPendingRecipients, hc, hs, Bool.not_true, Bool.false_eq_true,
          if_false]
        rw [ih (i + 1) s (f + 1)]
        simp [List.countP_cons, hff]
        omega

/-- C2 counterexample.  A single pending recipient whose rate-limit check is
denied: the loop sleeps and `continue`s past it, the recipient row stays
`pending`, neither counter moves, yet the campaign is marked `completed` —
contradicting the claim that no recipient of the pending list is left in
status `pending` when the loop finishes. -/
theorem broadcastDeniedRecipient_cex :
    processBroadcast (fun _ => { canSend := false, sendOk := true })
        [{ phoneNumber := "6281234567890", name := none }] 0 0 =
      { recipientStatuses := [RecipientStatus.pending], sentCount := 0,
        failedCount := 0, finalStatus := BroadcastStatus.completed } := rfl

/-- C2 amended.  When the rate-limit check denies a recipient, the executor
sleeps the returned delay and then `continue`s to the *next* recipient
without incrementing `sentCount` or `failedCount`: the denied recipient is
left in status `pending` even after the loop finishes, and the campaign
still transitions to `completed`; the counters equal their initial values
plus the number of rows marked `sent` resp. `failed`. -/
theorem broadcastDeniedRecipient_skipped (env : ℕ → SendDecision)
    (pending : List PendingRecipient) (j sentCount0 failedCount0 : ℕ)
    (hj : j < pending.length) (hdeny : (env j).canSend = false) :
    (processBroadcast env pending sentCount0 failedCount0).recipientStatuses[j]? =
      some RecipientStatus.pending ∧
    (processBroadcast env pending sentCount0 failedCount0).finalStatus =
      BroadcastStatus.completed ∧
    (processBroadcast env pending sentCount0 failedCount0).sentCount =
      sentCount0 + (processBroadcast env pending sentCount0 failedCount0).recipientStatuses.countP
        (fun st => st == RecipientStatus.sent) ∧
    (processBroadcast env pending sentCount0 failedCount0).failedCount =
      failedCount0 + (processBroadcast env pending sentCount0 failedCount0).recipientStatuses.countP
        (fun st => st == RecipientStatus.failed) := by
  refine ⟨?_, rfl, ?_, ?_⟩
  · show (processPendingRecipients env pending 0 sentCount0 failedCount0).1[j]? = _
    rw [processPendingRecipients_getElem]
    rcases List.getElem?_eq_some_iff.mpr ⟨hj, rfl⟩ with h
    rw [h]
    simp [outcomeStatus, hdeny]
  · exact processPendingRecipients_sentCount env pending 0 sentCount0 failedCount0
  · exact processPendingRecipients_failedCount env pending 0 sentCount0 failedCount0

/-- Witness for C2 amended: two recipients, the first denied, the second
admitted and sent. -/
theorem broadcastDeniedRecipient_skipped_witness :
    (processBroadcast (fun i => { canSend := i == 1, sendOk := true })
        [{ phoneNumber := "6281111111111", name := none },
         { phoneNumber := "6282222222222", name := none }] 0 0).recipientStatuses[0]? =
      some RecipientStatus.pending ∧
    (processBroadcast (fun i => { canSend := i == 1, sendOk := true })
        [{ phoneNumber := "6281111111111", name := none },
         { phoneNumber := "6282222222222", name := none }] 0 0).finalStatus =
      BroadcastStatus.completed ∧
    (processBroadcast (fun i => { canSend := i == 1, sendOk := true })
        [{ phoneNumber := "6281111111111", name := none },
         { phoneNumber := "6282222222222", name := none }] 0 0).sentCount =
      0 + (processBroadcast (fun i => { canSend := i == 1, sendOk := true })
        [{ phoneNumber := "6281111111111", name := none },
         { phoneNumber := "6282222222222", name := none }] 0 0).recipientStatuses.countP
        (fun st => st == RecipientStatus.sent) ∧
    (processBroadcast (fun i => { canSend := i == 1, sendOk := true })
        [{ phoneNumber := "6281111111111", name := none },
         { phoneNumber := "6282222222222", name := none }] 0 0).failedCount =
      0 + (processBroadcast (fun i => { canSend := i == 1, sendOk := true })
        [{ phoneNumber := "6281111111111", name := none },
         { phoneNumber := "6282222222222", name := none }] 0 0).recipientStatuses.countP
        (fun st => st == RecipientStatus.failed) :=
  broadcastDeniedRecipient_skipped (fun i => { canSend := i == 1, sendOk := true })
    [{ phoneNumber := "6281111111111", name := none },
     { phoneNumber := "6282222222222", name := none }] 0 0 0 (by decide) (by decide)

/-- C3.  Cancellation is permitted while a campaign is `processing`, but the
processing loop never re-reads the campaign status: with the status cell set
to `cancelled` just before the second iteration, the second recipient is
nevertheless sent and the epilogue overwrites the status with `completed`. -/
theorem broadcastCancellationIgnored :
    canCancel BroadcastStatus.processing = true ∧
    processBroadcastWithCancelAt (fun _ => { canSend := true, sendOk := true }) 1
        [{ phoneNumber := "6281111111111", name := none },
         { phoneNumber := "6282222222222", name := none }] =
      ([RecipientStatus.sent, RecipientStatus.sent], BroadcastStatus.completed) ∧
    (processLoopWithCancelAt (fun _ => { canSend := true, sendOk := true }) 1
        [{ phoneNumber := "6281111111111", name := none },
         { phoneNumber := "6282222222222", name := none }] 0
        BroadcastStatus.processing).2 = BroadcastStatus.cancelled := by
  refine ⟨rfl, rfl, rfl⟩

/-! ### Session manager: persist/publish ordering and fatal closures -/

/-- C4 counterexample.  On a fatal close (status code 403) the handler
publishes `session:connection_failed` (index 0) *before* it writes the
session row to `failed` (index 1): a subscriber can observe the event while
the row still shows the previous status. -/
theorem connectionFailedEventBeforePersist_cex :
    (closeHandlerTrace (some 403) false 0 false).findIdx isEmitConnectionFailed = 0 ∧
    (closeHandlerTrace (some 403) false 0 false).findIdx
      (isDbUpdateTo SessionStatus.failed) = 1 := by
  constructor <;> rfl

/-- C4 amended.  For the `connected` and `disconnected` state changes the
session-row update does happen before the corresponding live event is
published, but for every fatal closure the `session:connection_failed` event
is published *before* the row is set to `failed`. -/
theorem sessionPersistBeforePublish (phone : String) (statusCode : Option ℕ)
    (wasManual : Bool) (attempts : ℕ) (manualAtRetry : Bool) :
    (openHandlerTrace phone).findIdx (isDbUpdateTo SessionStatus.connected) <
      (openHandlerTrace phone).findIdx isEmitConnected ∧
    ((closeHandlerTrace statusCode wasManual attempts manualAtRetry).any
        isEmitDisconnected = true →
      (closeHandlerTrace statusCode wasManual attempts manualAtRetry).findIdx
          (isDbUpdateTo SessionStatus.disconnected) <
        (closeHandlerTrace statusCode wasManual attempts manualAtRetry).findIdx
          isEmitDisconnected) ∧
    (isFatalClose statusCode = true →
      (closeHandlerTrace statusCode wasManual attempts manualAtRetry).findIdx
          isEmitConnectionFailed <
        (closeHandlerTrace statusCode wasManual attempts manualAtRetry).findIdx
          (isDbUpdateTo SessionStatus.failed)) := by
  refine ⟨?_, ?_, ?_⟩
  · have hcc : (SessionStatus.connected == SessionStatus.connected) = true := by decide
    simp [openHandlerTrace, isDbUpdateTo, isEmitConnected, List.findIdx_cons, hcc]
  · intro hany
    by_cases hf : (classifyClose statusCode).2 = true
    · have ht : closeHandlerTrace statusCode wasManual attempts manualAtRetry =
          [SMAction.emitConnectionFailed (classifyClose statusCode).1 statusCode,
           SMAction.dbUpdate { status := SessionStatus.failed, isActive := false,
                               clearQr := true, phoneNumber := none },
           SMAction.deleteFiles,
           SMAction.callbackDisconnected (classifyClose statusCode).1] := by
        simp only [closeHandlerTrace]
        rw [if_pos hf]
      rw [ht] at hany
      simp [isEmitDisconnected] at hany
    · by_cases hsr : (statusCode != some DisconnectReason.loggedOut && !wasManual) = true
      · by_cases ha : attempts < reconnectMaxAttempts
        · have ht : closeHandlerTrace statusCode wasManual attempts manualAtRetry =
              [SMAction.sleepMs (reconnectBackoffDelay configReconnectDelayMs
                 configReconnectMaxDelayMs attempts),
               SMAction.reconnect] := by
            simp only [closeHandlerTrace]
            rw [if_neg hf, if_pos hsr, if_pos ha]
          rw [ht] at hany
          simp [isEmitDisconnected] at hany
        · have ht : closeHandlerTrace statusCode wasManual attempts manualAtRetry =
              [SMAction.dbUpdate { status := SessionStatus.disconnected, isActive := false,
                                   clearQr := false, phoneNumber := none },
               SMAction.emitDisconnected "Reconnecting in 2 minutes...",
               SMAction.sleepMs 120000] ++
                (if !manualAtRetry then [SMAction.reconnect] else []) := by
            simp only [closeHandlerTrace]
            rw [if_neg hf, if_pos hsr, if_neg ha]
          rw [ht]
          cases manualAtRetry <;> decide
      · have ht : closeHandlerTrace statusCode wasManual attempts manualAtRetry =
            (if !wasManual then [SMAction.deleteFiles] else []) ++
              [SMAction.dbUpdate { status := SessionStatus.disconnected, isActive := false,
                                   clearQr := true, phoneNumber := none },
               SMAction.callbackDisconnected
                 (if wasManual then "Manual disconnect" else "Logged out"),
               SMAction.emitDisconnected
                 (if wasManual then "Manual disconnect" else "Logged out")] := by
          simp only [closeHandlerTrace]
          rw [if_neg hf, if_neg hsr]
        rw [ht]
        cases wasManual <;> decide
  · intro hfatal
    have ht : closeHandlerTrace statusCode wasManual attempts manualAtRetry =
        [SMAction.emitConnectionFailed (classifyClose statusCode).1 statusCode,
         SMAction.dbUpdate { status := SessionStatus.failed, isActive := false,
                             clearQr := true, phoneNumber := none },
         SMAction.deleteFiles,
         SMAction.callbackDisconnected (classifyClose statusCode).1] := by
      simp only [closeHandlerTrace]
      rw [if_pos (show (classifyClose statusCode).2 = true from hfatal)]
    rw [ht]
    simp [isDbUpdateTo, isEmitConnectionFailed, List.findIdx_cons]

/-- Witness for C4 amended: phone `628111111111`, fatal code 440, a
transient close at attempt 0. -/
theorem sessionPersistBeforePublish_witness :
    (openHandlerTrace "628111111111").findIdx (isDbUpdateTo SessionStatus.connected) <
      (openHandlerTrace "628111111111").findIdx isEmitConnected ∧
    ((closeHandlerTrace (some 440) false 0 false).any isEmitDisconnected = true →
      (closeHandlerTrace (some 440) false 0 false).findIdx
          (isDbUpdateTo SessionStatus.disconnected) <
        (closeHandlerTrace (some 440) false 0 false).findIdx isEmitDisconnected) ∧
    (isFatalClose (some 440) = true →
      (closeHandlerTrace (some 440) false 0 false).findIdx isEmitConnectionFailed <
        (closeHandlerTrace (some 440) false 0 false).findIdx
          (isDbUpdateTo SessionStatus.failed)) :=
  sessionPersistBeforePublish "628111111111" (some 440) false 0 false

/-- C10.  Every close whose status code is at least 400 and is not one of
the non-fatal reasons `connectionClosed` (428), `connectionLost` / `timedOut`
(both 408) or `restartRequired` (515) is classified fatal: the handler
publishes `session:connection_failed`, sets the row to `failed` with
`isActive = false` and the QR fields cleared, deletes the credential
directory, and schedules no reconnection. -/
theorem fatalCloseClassification (c : ℕ) (wasManual : Bool) (attempts : ℕ)
    (manualAtRetry : Bool) (h400 : 400 ≤ c)
    (hcc : c ≠ DisconnectReason.connectionClosed)
    (hcl : c ≠ DisconnectReason.connectionLost)
    (hrr : c ≠ DisconnectReason.restartRequired) :
    isFatalClose (some c) = true ∧
    closeHandlerTrace (some c) wasManual attempts manualAtRetry =
      [SMAction.emitConnectionFailed (classifyClose (some c)).1 (some c),
       SMAction.dbUpdate { status := SessionStatus.failed, isActive := false,
                           clearQr := true, phoneNumber := none },
       SMAction.deleteFiles,
       SMAction.callbackDisconnected (classifyClose (some c)).1] ∧
    SMAction.reconnect ∉ closeHandlerTrace (some c) wasManual attempts manualAtRetry := by
  have hfatal : isFatalClose (some c) = true := by
    show (classifyCloseCode c).2 = true
    unfold classifyCloseCode DisconnectReason.loggedOut DisconnectReason.badSession
      DisconnectReason.connectionClosed DisconnectReason.connectionLost
      DisconnectReason.connectionReplaced DisconnectReason.restartRequired
    unfold DisconnectReason.connectionClosed at hcc
    unfold DisconnectReason.connectionLost at hcl
    unfold DisconnectReason.restartRequired at hrr
    split_ifs <;> first | rfl | (exfalso; omega)
  have htrace : closeHandlerTrace (some c) wasManual attempts manualAtRetry =
      [SMAction.emitConnectionFailed (classifyClose (some c)).1 (some c),
       SMAction.dbUpdate { status := SessionStatus.failed, isActive := false,
                           clearQr := true, phoneNumber := none },
       SMAction.deleteFiles,
       SMAction.callbackDisconnected (classifyClose (some c)).1] := by
    unfold closeHandlerTrace
    rw [if_pos (show (classifyClose (some c)).2 = true from hfatal)]
  refine ⟨hfatal, htrace, ?_⟩
  rw [htrace]
  simp

/-- Witness for C10 at code 440 (`connectionReplaced`). -/
theorem fatalCloseClassification_witness :
    isFatalClose (some 440) = true ∧
    closeHandlerTrace (some 440) false 0 false =
      [SMAction.emitConnectionFailed (classifyClose (some 440)).1 (some 440),
       SMAction.dbUpdate { status := SessionStatus.failed, isActive := false,
                           clearQr := true, phoneNumber := none },
       SMAction.deleteFiles,
       SMAction.callbackDisconnected (classifyClose (some 440)).1] ∧
    SMAction.reconnect ∉ closeHandlerTrace (some 440) false 0 false :=
  fatalCloseClassification 440 false 0 false (by decide) (by decide) (by decide) (by decide)

/-! ### Inbound dispatcher idempotency -/

/-- C1.  For a connected session (socket passed), an auto-reply-eligible
text message and no assigned human agent: the first execution persists
exactly one row with the external `message_id` and invokes the auto-reply
use case exactly once, and the second execution of the same event detects
the existing `message_id` and returns with the state unchanged — no second
row and no second auto-reply. -/
theorem inboundDedup_onePersist_oneAutoReply (session : SessionRow)
    (st : DispatchState) (data : IncomingMessageData)
    (hsock : data.socketPresent = true)
    (henabled : (session.settings.bind (·.autoReplyEnabled)).getD true = true)
    (htext : data.type = MessageType.text)
    (hfresh : ∀ m ∈ st.messages, m.messageId ≠ data.messageId) :
    ∃ st1, processIncomingMessage (some session) none st data = Except.ok st1 ∧
      processIncomingMessage (some session) none st1 data = Except.ok st1 ∧
      st1.messages.countP (fun m => m.messageId == data.messageId) = 1 ∧
      st1.autoReplyCalls = st.autoReplyCalls + 1 := by
  have hfind : st.messages.find? (fun m => m.messageId == data.messageId) = none := by
    rw [List.find?_eq_none]
    intro m hm
    simp [hfresh m hm]
  have hrow : ∀ (st2 : DispatchState) (row : MessageRow), row.messageId = data.messageId →
      st2.messages = st.messages ++ [row] →
      st2.messages.countP (fun m => m.messageId == data.messageId) = 1 := by
    intro st2 row hid h2
    rw [h2, List.countP_append]
    have h0 : st.messages.countP (fun m => m.messageId == data.messageId) = 0 := by
      rw [List.countP_eq_zero]
      intro m hm
      simp [hfresh m hm]
    rw [h0]
    simp [hid]
  have hfind2 : ∀ row : MessageRow, row.messageId = data.messageId →
      (st.messages ++ [row]).find? (fun m => m.messageId == data.messageId) = some row := by
    intro row hid
    rw [List.find?_append, hfind]
    simp [List.find?, hid]
  simp only [processIncomingMessage, hsock, Bool.not_true, Bool.false_and, Bool.false_eq_true,
    if_false, hfind]
  by_cases hsave : (session.settings.bind (·.autoSaveContacts)).getD true
  · simp only [hsave, if_true, henabled, Bool.not_true, Bool.false_eq_true, if_false, htext]
    refine ⟨_, rfl, ?_, ?_, rfl⟩
    · simp only [processIncomingMessage, hsock, Bool.not_true, Bool.false_and,
        Bool.false_eq_true, if_false, hfind2]
    · exact hrow _ _ rfl rfl
  · simp only [Bool.not_eq_true] at hsave
    simp only [hsave, Bool.false_eq_true, if_false, henabled, Bool.not_true,
      Bool.false_eq_true, htext]
    refine ⟨_, rfl, ?_, ?_, rfl⟩
    · simp only [processIncomingMessage, hsock, Bool.not_true, Bool.false_and,
        Bool.false_eq_true, if_false, hfind2]
    · exact hrow _ _ rfl rfl

/-- Witness for C1: the spec scenario `message_id = "m-42"` from
`628122222222` delivered twice to a connected session. -/
theorem inboundDedup_onePersist_oneAutoReply_witness :
    ∃ st1, processIncomingMessage
        (some { id := 7, userId := 1, sessionId := "sess-1",
                status := SessionStatus.connected, settings := none,
                aiAssistantType := none }) none
        { messages := [], contactSaves := 0, incomingEvents := 0, autoReplyCalls := 0 }
        { whatsappSessionId := "sess-1", messageId := "m-42",
          fromNumber := "628122222222", toNumber := "628111111111",
          type := MessageType.text, content := some "hi", pushName := none,
          socketPresent := true, replyJid := none } = Except.ok st1 ∧
      processIncomingMessage
        (some { id := 7, userId := 1, sessionId := "sess-1",
                status := SessionStatus.connected, settings := none,
                aiAssistantType := none }) none st1
        { whatsappSessionId := "sess-1", messageId := "m-42",
          fromNumber := "628122222222", toNumber := "628111111111",
          type := MessageType.text, content := some "hi", pushName := none,
          socketPresent := true, replyJid := none } = Except.ok st1 ∧
      st1.messages.countP (fun m => m.messageId == "m-42") = 1 ∧
      st1.autoReplyCalls = 0 + 1 :=
  inboundDedup_onePersist_oneAutoReply
    { id := 7, userId := 1, sessionId := "sess-1", status := SessionStatus.connected,
      settings := none, aiAssistantType := none }
    { messages := [], contactSaves := 0, incomingEvents := 0, autoReplyCalls := 0 }
    { whatsappSessionId := "sess-1", messageId := "m-42", fromNumber := "628122222222",
      toNumber := "628111111111", type := MessageType.text, content := some "hi",
      pushName := none, socketPresent := true, replyJid := none }
    rfl rfl rfl (by simp)

end ChatCepat
